import Mathlib

/-!
Verification of the request-task persistence layer of `sky/api/requests/tasks.py`
(the durable status-tracking store for asynchronous API requests).

The Python module is shallowly embedded below:

* Python values that flow through the generic structured-text codec (the
  stdlib `json` module) are modelled by the inductive type `PyVal`; a value
  is JSON-serializable exactly when it contains no opaque object
  (`PyVal.obj`), mirroring `json.dumps` raising `TypeError` on
  non-serializable objects.
* The `json` module itself is external to the repository and is modelled at
  the interface the specification gives it (a lossless structured-text
  round trip that fails on non-representable values): serialized text is
  represented by `JsonText`, a value of the JSON data model tagged as text,
  since `json.dumps` is injective on the JSON data model and `json.loads`
  is its inverse there.
* `sky.api.requests.encoders` and `sky.api.requests.decoders` are
  repository modules that are not part of the provided sources; the two
  primitives used here (`_pickle_and_encode` slash `_decode_and_unpickle`
  and the per-name handler registry) are modelled from the specification,
  which fixes only their interface. Their doc comments say so explicitly.
* The SQLite file, the process-wide lazy `_DB` handle and `os.remove` are
  modelled by `GState`: a table of inodes, a `path` naming the inode the
  database path currently points at, and a `handle` naming the inode the
  open connection refers to. Removing the file only detaches `path`; an
  open handle keeps its inode alive (POSIX unlink semantics), which is
  exactly what happens to an open SQLite connection whose backing file is
  unlinked.
* The per-request `filelock.FileLock` discipline is modelled separately as
  the list of lock and database actions each API function performs
  (`LockAction` traces), read off line by line from the source.
-/

/-- A Python value as it can appear in the `request_body` and `return_value`
fields: the JSON data model (`null`, booleans, integers, strings, lists,
string-keyed dicts) plus `obj`, an opaque Python object that the `json`
codec cannot serialize. -/
inductive PyVal where
  | null : PyVal
  | bool (b : Bool) : PyVal
  | int (n : Int) : PyVal
  | str (s : String) : PyVal
  | list (xs : List PyVal) : PyVal
  | dict (kvs : List (String × PyVal)) : PyVal
  | obj (oid : Nat) : PyVal
deriving Repr

mutual

/-- `json.dumps` succeeds on a value exactly when this predicate holds:
the value contains no opaque object. -/
def PyVal.serializable : PyVal → Bool
  | .null => true
  | .bool _ => true
  | .int _ => true
  | .str _ => true
  | .list xs => PyVal.serializableList xs
  | .dict kvs => PyVal.serializableKVs kvs
  | .obj _ => false

/-- All elements of a list are serializable. -/
def PyVal.serializableList : List PyVal → Bool
  | [] => true
  | x :: xs => PyVal.serializable x && PyVal.serializableList xs

/-- All values of an association list are serializable. -/
def PyVal.serializableKVs : List (String × PyVal) → Bool
  | [] => true
  | (_, v) :: kvs => PyVal.serializable v && PyVal.serializableKVs kvs

end

mutual

/-- Decidable equality for `PyVal`. -/
def PyVal.beqVal : PyVal → PyVal → Bool
  | .null, .null => true
  | .bool a, .bool b => a == b
  | .int a, .int b => a == b
  | .str a, .str b => a == b
  | .list xs, .list ys => PyVal.beqList xs ys
  | .dict xs, .dict ys => PyVal.beqKVs xs ys
  | .obj a, .obj b => a == b
  | _, _ => false

/-- Elementwise equality of lists of `PyVal`. -/
def PyVal.beqList : List PyVal → List PyVal → Bool
  | [], [] => true
  | x :: xs, y :: ys => PyVal.beqVal x y && PyVal.beqList xs ys
  | _, _ => false

/-- Elementwise equality of association lists of `PyVal`. -/
def PyVal.beqKVs : List (String × PyVal) → List (String × PyVal) → Bool
  | [], [] => true
  | (k, v) :: xs, (l, w) :: ys => k == l && PyVal.beqVal v w && PyVal.beqKVs xs ys
  | _, _ => false

end

instance : BEq PyVal := ⟨PyVal.beqVal⟩

mutual

theorem PyVal.beqVal_refl : ∀ v : PyVal, PyVal.beqVal v v = true
  | .null => rfl
  | .bool b => by simp [PyVal.beqVal]
  | .int n => by simp [PyVal.beqVal]
  | .str s => by simp [PyVal.beqVal]
  | .list xs => by simpa [PyVal.beqVal] using PyVal.beqList_refl xs
  | .dict kvs => by simpa [PyVal.beqVal] using PyVal.beqKVs_refl kvs
  | .obj a => by simp [PyVal.beqVal]

theorem PyVal.beqList_refl : ∀ xs : List PyVal, PyVal.beqList xs xs = true
  | [] => rfl
  | x :: xs => by
      simp only [PyVal.beqList, Bool.and_eq_true]
      exact ⟨PyVal.beqVal_refl x, PyVal.beqList_refl xs⟩

theorem PyVal.beqKVs_refl : ∀ xs : List (String × PyVal), PyVal.beqKVs xs xs = true
  | [] => rfl
  | (k, v) :: xs => by
      simp only [PyVal.beqKVs, Bool.and_eq_true]
      exact ⟨⟨by simp, PyVal.beqVal_refl v⟩, PyVal.beqKVs_refl xs⟩

end

mutual

theorem PyVal.eq_of_beqVal : ∀ {v w : PyVal}, PyVal.beqVal v w = true → v = w
  | .null, .null, _ => rfl
  | .bool a, .bool b, h => by simp [PyVal.beqVal] at h; simp [h]
  | .int a, .int b, h => by simp [PyVal.beqVal] at h; simp [h]
  | .str a, .str b, h => by simp [PyVal.beqVal] at h; simp [h]
  | .list xs, .list ys, h => by
      simp only [PyVal.beqVal] at h
      simp [PyVal.eq_of_beqList h]
  | .dict xs, .dict ys, h => by
      simp only [PyVal.beqVal] at h
      simp [PyVal.eq_of_beqKVs h]
  | .obj a, .obj b, h => by simp [PyVal.beqVal] at h; simp [h]

theorem PyVal.eq_of_beqList : ∀ {xs ys : List PyVal}, PyVal.beqList xs ys = true → xs = ys
  | [], [], _ => rfl
  | x :: xs, y :: ys, h => by
      simp only [PyVal.beqList, Bool.and_eq_true] at h
      simp [PyVal.eq_of_beqVal h.1, PyVal.eq_of_beqList h.2]

theorem PyVal.eq_of_beqKVs :
    ∀ {xs ys : List (String × PyVal)}, PyVal.beqKVs xs ys = true → xs = ys
  | [], [], _ => rfl
  | (k, v) :: xs, (l, w) :: ys, h => by
      simp only [PyVal.beqKVs, Bool.and_eq_true] at h
      obtain ⟨⟨hk, hv⟩, ht⟩ := h
      simp only [beq_iff_eq] at hk
      simp [hk, PyVal.eq_of_beqVal hv, PyVal.eq_of_beqKVs ht]

end

instance : DecidableEq PyVal := fun v w =>
  if h : PyVal.beqVal v w = true then
    isTrue (PyVal.eq_of_beqVal h)
  else
    isFalse (fun he => h (he ▸ PyVal.beqVal_refl v))

/-- Serialized JSON text, modelled at the interface the specification gives
the external structured-text codec: `json.dumps` is injective on the JSON
data model, so a text in its image is faithfully represented by the value
it denotes. -/
structure JsonText where
  val : PyVal
deriving Repr, DecidableEq

/-- The `TypeError` raised by `json.dumps` on a non-serializable value;
it carries the offending value. -/
structure JTypeError where
  offending : PyVal
deriving Repr, DecidableEq

/-- `json.dumps`: serialize a Python value to text, raising `TypeError`
when the value is not representable in JSON. Modelled at the codec
interface fixed by the specification (lossless on representable values). -/
def json_dumps (v : PyVal) : Except JTypeError JsonText :=
  if PyVal.serializable v then .ok ⟨v⟩ else .error ⟨v⟩

/-- `json.loads` on well-formed JSON text: the inverse of `json_dumps` on
its image. -/
def json_loads (t : JsonText) : PyVal :=
  t.val

/-- `RequestStatus`: the status of a task (`enum.Enum`, declaration order
PENDING, RUNNING, SUCCEEDED, FAILED, ABORTED). -/
inductive RequestStatus where
  | pending : RequestStatus
  | running : RequestStatus
  | succeeded : RequestStatus
  | failed : RequestStatus
  | aborted : RequestStatus
deriving Repr, DecidableEq

/-- `list(RequestStatus)`: the enum members in declaration order. -/
def statusList : List RequestStatus :=
  [.pending, .running, .succeeded, .failed, .aborted]

/-- `RequestStatus.__gt__`: compare two statuses by their index in
`list(RequestStatus)`. -/
def RequestStatus.gt (s other : RequestStatus) : Bool :=
  decide (statusList.indexOf s > statusList.indexOf other)

/-- The `value` of a `RequestStatus` member (the string stored in the
`status` column). -/
def RequestStatus.value : RequestStatus → String
  | .pending => "PENDING"
  | .running => "RUNNING"
  | .succeeded => "SUCCEEDED"
  | .failed => "FAILED"
  | .aborted => "ABORTED"

/-- `RequestStatus(s)`: look a member up by value; `none` models the
`ValueError` Python raises when no member has that value. -/
def RequestStatus.ofValue (s : String) : Option RequestStatus :=
  if s = "PENDING" then some .pending
  else if s = "RUNNING" then some .running
  else if s = "SUCCEEDED" then some .succeeded
  else if s = "FAILED" then some .failed
  else if s = "ABORTED" then some .aborted
  else none

/-- A Python exception object as the error path sees it: its class name and
its message (`str(e)`). Modelled from the spec: error payloads are
arbitrary exception objects carrying a kind and a message; the scenario
uses `ValueError("bad input")`, whose `str` is the message. -/
structure ExcObj where
  className : String
  message : String
deriving Repr, DecidableEq

/-- `str(e)` on an exception object. Modelled from the spec: the message
string of the error. -/
def excStr (e : ExcObj) : String :=
  e.message

/-- The text produced by `encoders._pickle_and_encode`. Modelled from the
spec: the opaque serialize-arbitrary-object-to-text primitive is lossless,
so a text in its image is faithfully represented by the object it
encodes. -/
structure Pickled where
  obj : ExcObj
deriving Repr, DecidableEq

/-- `encoders._pickle_and_encode` (module not among the provided sources).
Modelled from the spec: serialize an arbitrary object to storable text. -/
def _pickle_and_encode (e : ExcObj) : Pickled :=
  ⟨e⟩

/-- `decoders._decode_and_unpickle` (module not among the provided
sources). Modelled from the spec: the inverse of `_pickle_and_encode`. -/
def _decode_and_unpickle (p : Pickled) : ExcObj :=
  p.obj

/-- The error dictionary stored in `RequestTask.error`: exactly the shape
written by `set_error`, keys `object`, `type`, `message`. -/
structure ErrPayload where
  object : Pickled
  type : String
  message : String
deriving Repr, DecidableEq

/-- The `error` column text: `json.dumps` of the optional error dictionary
(all of whose entries are strings, hence always serializable); modelled at
the codec interface like `JsonText`. -/
structure ErrJsonText where
  val : Option ErrPayload
deriving Repr, DecidableEq

/-- The per-name handler registry of `sky.api.requests.encoders` slash
`decoders` (modules not among the provided sources). Modelled from the
spec: a lookup from task name to a transform function, where unknown names
fail closed with an error instead of passing the value through. -/
def get_handler (registry : List (String × (PyVal → PyVal))) (name : String) :
    Except String (PyVal → PyVal) :=
  match registry.lookup name with
  | some h => .ok h
  | none => .error name

/-- `RequestTask`: the in-memory REST task record (dataclass). The
`error` field is typed with the shape its writers in this module maintain
(`set_error` and the decoder of rows written by `encode`): `None` or the
`{object, type, message}` dictionary of strings. -/
structure RequestTask where
  request_id : String
  name : String
  entrypoint : String
  request_body : PyVal
  status : RequestStatus
  return_value : PyVal := .null
  error : Option ErrPayload := none
  pid : Option Int := none
deriving Repr, DecidableEq

/-- A value of the dictionary returned by `get_error`: the reconstructed
exception object under key `object`, strings under `type` and
`message`. -/
inductive GotVal where
  | pyobj (e : ExcObj) : GotVal
  | s (s : String) : GotVal
deriving Repr, DecidableEq

/-- `RequestTask.set_error`: store the error as a dictionary holding the
opaque-encoded object, the class name of the exception and `str(e)`. -/
def RequestTask.set_error (t : RequestTask) (e : ExcObj) : RequestTask :=
  { t with error := some ⟨_pickle_and_encode e, e.className, excStr e⟩ }

/-- `RequestTask.get_error`: `None` when no error is stored; otherwise a
dictionary with exactly the keys `object` (the decoded and unpickled
payload), `type` and `message`. -/
def RequestTask.get_error (t : RequestTask) : Option (List (String × GotVal)) :=
  match t.error with
  | none => none
  | some e =>
      some [("object", .pyobj (_decode_and_unpickle e.object)),
            ("type", .s e.type),
            ("message", .s e.message)]

/-- `RequestTask.set_return_value`: pass the value through the handler
selected by the task name; fails when the name has no handler. -/
def RequestTask.set_return_value (registry : List (String × (PyVal → PyVal)))
    (t : RequestTask) (v : PyVal) : Except String RequestTask :=
  (get_handler registry t.name).map fun h => { t with return_value := h v }

/-- `RequestTask.get_return_value`: pass the stored value through the
decoding handler selected by the task name. -/
def RequestTask.get_return_value (registry : List (String × (PyVal → PyVal)))
    (t : RequestTask) : Except String PyVal :=
  (get_handler registry t.name).map fun h => h t.return_value

/-- `RequestTaskPayload`: the serialized row (one value per column of the
`rest_tasks` table, in `REQUEST_TASK_COLUMNS` order). -/
structure RequestTaskPayload where
  request_id : String
  name : String
  entrypoint : String
  request_body : JsonText
  status : String
  return_value : JsonText
  error : ErrJsonText
  pid : Option Int
deriving Repr, DecidableEq

/-- The diagnostic context printed by `encode` when serialization fails:
the request id, the name, the request body and the return value (the
`error` field is not printed). -/
structure EncodeDiag where
  request_id : String
  name : String
  request_body : PyVal
  return_value : PyVal
deriving Repr, DecidableEq

/-- An encoding failure: the printed diagnostic context together with the
re-raised `TypeError`. -/
structure EncodeFailure where
  diag : EncodeDiag
  err : JTypeError
deriving Repr, DecidableEq

/-- The diagnostic context `encode` prints for a task. -/
def RequestTask.encodeDiag (t : RequestTask) : EncodeDiag :=
  ⟨t.request_id, t.name, t.request_body, t.return_value⟩

/-- `RequestTask.encode`: serialize the task to a row payload;
`request_body` and `return_value` go through `json.dumps` (the `error`
dictionary contains only strings and always serializes). On a `TypeError`
the diagnostic context is printed and the error re-raised. -/
def RequestTask.encode (t : RequestTask) : Except EncodeFailure RequestTaskPayload :=
  match json_dumps t.request_body with
  | .error e => .error ⟨t.encodeDiag, e⟩
  | .ok body =>
      match json_dumps t.return_value with
      | .error e => .error ⟨t.encodeDiag, e⟩
      | .ok rv =>
          .ok ⟨t.request_id, t.name, t.entrypoint, body, t.status.value, rv,
               ⟨t.error⟩, t.pid⟩

/-- The decoding failure raised when the stored status string matches no
`RequestStatus` member (`ValueError`). -/
structure DecodeFailure where
  badStatus : String
deriving Repr, DecidableEq

/-- `RequestTask.decode`: deserialize a row payload back into a task;
fails on a status string that names no member. -/
def RequestTask.decode (p : RequestTaskPayload) : Except DecodeFailure RequestTask :=
  match RequestStatus.ofValue p.status with
  | none => .error ⟨p.status⟩
  | some st =>
      .ok ⟨p.request_id, p.name, p.entrypoint, json_loads p.request_body, st,
           json_loads p.return_value, p.error.val, p.pid⟩

/-- A stored row of the `rest_tasks` table. -/
abbrev Row := RequestTaskPayload

/-- An inode of the filesystem holding a SQLite database file: the
`rest_tasks` table keyed by `request_id` (the primary key). -/
structure Inode where
  rows : List (String × Row)
deriving Repr, DecidableEq

/-- The global state of the persistence layer in one process. `inodes` is
the list of database-file inodes ever created (index = inode number);
`path` is the inode the database path currently names, if the file exists;
`handle` is the inode the process-wide open connection `_DB` refers to, if
initialized. Removing the file detaches `path` only: an open connection
keeps operating on its unlinked inode (POSIX semantics). -/
structure GState where
  handle : Option Nat
  path : Option Nat
  inodes : List Inode
deriving Repr, DecidableEq

/-- The fresh state of a process that has not touched the store and whose
database file does not exist. -/
def GState.fresh : GState :=
  ⟨none, none, []⟩

/-- The `init_db` decorator: if `_DB is None`, open the database file
(creating the file and its schema when the file does not exist) and store
the connection in the process-wide `_DB`; otherwise do nothing. -/
def init_db (s : GState) : GState :=
  match s.handle with
  | some _ => s
  | none =>
      match s.path with
      | some i => { s with handle := some i }
      | none =>
          { s with
            inodes := s.inodes ++ [⟨[]⟩],
            path := some s.inodes.length,
            handle := some s.inodes.length }

/-- `reset_db`: `remove_file_if_exists(_DB_PATH)` — unlink the backing
file. The process-wide `_DB` handle is not touched. -/
def reset_db (s : GState) : GState :=
  { s with path := none }

/-- The table contents visible through the open `_DB` handle (empty when no
handle is open; the decorated operations always open one first). -/
def GState.table (s : GState) : List (String × Row) :=
  match s.handle with
  | some i => ((s.inodes.get? i).map Inode.rows).getD []
  | none => []

/-- `INSERT OR REPLACE` of a row under its primary key. -/
def upsertRow (id : String) (row : Row) : List (String × Row) → List (String × Row)
  | [] => [(id, row)]
  | (k, v) :: rest =>
      if k = id then (id, row) :: rest else (k, v) :: upsertRow id row rest

/-- Write a row into the table behind the open handle. -/
def GState.setRow (s : GState) (id : String) (row : Row) : GState :=
  match s.handle with
  | some i =>
      match s.inodes.get? i with
      | some node => { s with inodes := s.inodes.set i ⟨upsertRow id row node.rows⟩ }
      | none => s
  | none => s

/-- `_get_rest_task_no_lock`: `SELECT * FROM rest_tasks WHERE
request_id=?`, then decode the row if one was found; `none` when no row
exists. -/
def _get_rest_task_no_lock (s : GState) (id : String) :
    Except DecodeFailure (Option RequestTask) :=
  match s.table.lookup id with
  | none => .ok none
  | some row => (RequestTask.decode row).map some

/-- `_dump_request_no_lock`: encode the task and `INSERT OR REPLACE` its
row. -/
def _dump_request_no_lock (s : GState) (t : RequestTask) :
    Except EncodeFailure GState :=
  (t.encode).map fun row => s.setRow t.request_id row

/-- `get_request` (decorated with `init_db`): acquire the per-request file
lock, read the row, decode it, release the lock. Returns the result and
the state (the lock itself does not change the store; the locking
discipline is modelled by `get_request_trace`). -/
def get_request (s : GState) (id : String) :
    Except DecodeFailure (Option RequestTask) × GState :=
  let s₁ := init_db s
  (_get_rest_task_no_lock s₁ id, s₁)

/-- `dump_reqest` (decorated with `init_db`): acquire the per-request file
lock, write the row, release the lock. -/
def dump_reqest (s : GState) (t : RequestTask) : Except EncodeFailure GState :=
  let s₁ := init_db s
  _dump_request_no_lock s₁ t

/-- The failure modes of `update_rest_task`: the read side can fail to
decode, the write side can fail to encode. -/
inductive UpdateErr where
  | decodeFailed (e : DecodeFailure) : UpdateErr
  | encodeFailed (e : EncodeFailure) : UpdateErr
deriving Repr, DecidableEq

/-- `update_rest_task` (contextmanager, decorated with `init_db`): read
and decode the current record, yield it to the caller (whose in-place
mutation is the function `f`), and on scope exit re-encode and write it
back — only if a record existed. No file lock is acquired anywhere in its
body (see `update_rest_task_trace`). -/
def update_rest_task (s : GState) (id : String) (f : RequestTask → RequestTask) :
    Except UpdateErr GState :=
  let s₁ := init_db s
  match _get_rest_task_no_lock s₁ id with
  | .error e => .error (.decodeFailed e)
  | .ok none => .ok s₁
  | .ok (some t) =>
      match _dump_request_no_lock s₁ (f t) with
      | .error e => .error (.encodeFailed e)
      | .ok s₂ => .ok s₂

/-- `get_request_tasks`: `SELECT * FROM rest_tasks`, decode every row
(no per-request lock). -/
def get_request_tasks (s : GState) :
    Except DecodeFailure (List RequestTask) × GState :=
  let s₁ := init_db s
  ((s₁.table.map Prod.snd).mapM RequestTask.decode, s₁)

/-- An observable lock or database action of one store operation, used to
state the locking discipline each function follows. -/
inductive LockAction where
  | acquire (id : String) : LockAction
  | release (id : String) : LockAction
  | dbRead (id : String) : LockAction
  | dbWrite (id : String) : LockAction
deriving Repr, DecidableEq

/-- Actions of `_get_rest_task_no_lock`: one database read, no locking. -/
def _get_rest_task_no_lock_trace (id : String) : List LockAction :=
  [.dbRead id]

/-- Actions of `_dump_request_no_lock`: one database write, no locking. -/
def _dump_request_no_lock_trace (id : String) : List LockAction :=
  [.dbWrite id]

/-- Actions of `get_request`: `with filelock.FileLock(request_lock_path
(request_id))` around the unlocked read. -/
def get_request_trace (id : String) : List LockAction :=
  [.acquire id] ++ _get_rest_task_no_lock_trace id ++ [.release id]

/-- Actions of `dump_reqest`: the per-request file lock around the
unlocked write. -/
def dump_reqest_trace (id : String) : List LockAction :=
  [.acquire id] ++ _dump_request_no_lock_trace id ++ [.release id]

/-- Actions of `update_rest_task` for a run in which a record was found
(`found = true`) or not: the unlocked read, the yield to the caller, then
the unlocked write when a record existed. The source wraps neither call in
`filelock.FileLock`. -/
def update_rest_task_trace (id : String) (found : Bool) : List LockAction :=
  _get_rest_task_no_lock_trace id ++
    (if found then _dump_request_no_lock_trace id else [])

/-- The schedule in which two concurrent `update_rest_task` calls on the
same id both perform their read phase before either performs its write
phase. Each thread runs exactly the body of `update_rest_task`
(`_get_rest_task_no_lock`, caller mutation, `_dump_request_no_lock`); the
interleaving respects the lock discipline because
`update_rest_task_trace` contains no acquire or release, so nothing
orders the two critical sections. -/
def two_updates_read_read_write_write (s : GState) (id : String)
    (f g : RequestTask → RequestTask) : Except UpdateErr GState :=
  let s₁ := init_db s
  match _get_rest_task_no_lock s₁ id, _get_rest_task_no_lock s₁ id with
  | .error e, _ => .error (.decodeFailed e)
  | _, .error e => .error (.decodeFailed e)
  | .ok none, _ => .ok s₁
  | _, .ok none => .ok s₁
  | .ok (some ta), .ok (some tb) =>
      match _dump_request_no_lock s₁ (f ta) with
      | .error e => .error (.encodeFailed e)
      | .ok s₂ =>
          match _dump_request_no_lock s₂ (g tb) with
          | .error e => .error (.encodeFailed e)
          | .ok s₃ => .ok s₃

/-- Running the two updates one after the other (the serialized outcome
the specification promises). -/
def two_updates_serialized (s : GState) (id : String)
    (f g : RequestTask → RequestTask) : Except UpdateErr GState :=
  match update_rest_task s id f with
  | .error e => .error e
  | .ok s₁ => update_rest_task s₁ id g

/-- The pid stored for an id after a store operation (used to observe
lost updates at a concrete input). -/
def storedPid (r : Except UpdateErr GState) (id : String) : Option (Option Int) :=
  match r with
  | .error _ => none
  | .ok s => (s.table.lookup id).map RequestTaskPayload.pid

/-- The position of a status in the declaration order the specification
states: PENDING, RUNNING, SUCCEEDED, FAILED, ABORTED. -/
def statusDeclIndex : RequestStatus → Nat
  | .pending => 0
  | .running => 1
  | .succeeded => 2
  | .failed => 3
  | .aborted => 4

/-- The scenario record: id `r1`, name `echo`, body `{"x": 1}`, status
PENDING, no return value, no error. -/
def taskEcho : RequestTask :=
  { request_id := "r1", name := "echo", entrypoint := "sky.api.echo",
    request_body := .dict [("x", .int 1)], status := .pending }

/-- The stored row of `taskEcho`. -/
def rowEcho : Row :=
  ⟨"r1", "echo", "sky.api.echo", ⟨.dict [("x", .int 1)]⟩, "PENDING",
   ⟨.null⟩, ⟨none⟩, none⟩

/-- A process state whose lazy handle is initialized and whose table holds
the row of `taskEcho`. -/
def sInitialized : GState :=
  ⟨some 0, some 0, [⟨[("r1", rowEcho)]⟩]⟩

/-- An initialized process state with an empty table. -/
def sEmptyTable : GState :=
  ⟨some 0, some 0, [⟨[]⟩]⟩

/-- The caller mutation of the lost-update scenario: increment the pid
counter. -/
def bumpPid (t : RequestTask) : RequestTask :=
  { t with pid := some (t.pid.getD 0 + 1) }

/-- The row of the lost-update scenario: id `r1` with pid 0. -/
def rowPidZero : Row :=
  ⟨"r1", "echo", "sky.api.echo", ⟨.dict []⟩, "PENDING", ⟨.null⟩, ⟨none⟩,
   some 0⟩

/-- An initialized process state holding `rowPidZero`. -/
def sPidZero : GState :=
  ⟨some 0, some 0, [⟨[("r1", rowPidZero)]⟩]⟩

/-- A record whose request body holds a non-serializable object. -/
def taskBadBody : RequestTask :=
  { request_id := "rbad", name := "echo", entrypoint := "sky.api.echo",
    request_body := .obj 0, status := .running }

/-- The scenario error object: a ValueError with message `bad input`. -/
def valueErrorBadInput : ExcObj :=
  ⟨"ValueError", "bad input"⟩

/-- `taskEcho` after `set_error(ValueError("bad input"))`. -/
def taskWithError : RequestTask :=
  { taskEcho with
    error := some ⟨⟨valueErrorBadInput⟩, "ValueError", "bad input"⟩ }

/-- A handler registry for scenarios: the name `echo` with the identity
transform. -/
def echoRegistry : List (String × (PyVal → PyVal)) :=
  [("echo", fun v => v)]

theorem init_db_of_handle_some {s : GState} {i : Nat} (h : s.handle = some i) :
    init_db s = s := by
  unfold init_db
  rw [h]

theorem RequestStatus.ofValue_value :
    ∀ st : RequestStatus, RequestStatus.ofValue st.value = some st := by
  intro st
  cases st <;> rfl

theorem encode_eq_ok_of_serializable {t : RequestTask}
    (hb : PyVal.serializable t.request_body = true)
    (hr : PyVal.serializable t.return_value = true) :
    t.encode = .ok ⟨t.request_id, t.name, t.entrypoint, ⟨t.request_body⟩,
      t.status.value, ⟨t.return_value⟩, ⟨t.error⟩, t.pid⟩ := by
  unfold RequestTask.encode json_dumps
  rw [hb, hr]
  rfl

theorem decode_encode_of_serializable {t : RequestTask}
    (hb : PyVal.serializable t.request_body = true)
    (hr : PyVal.serializable t.return_value = true) :
    ∃ p, t.encode = .ok p ∧ RequestTask.decode p = .ok t := by
  refine ⟨_, encode_eq_ok_of_serializable hb hr, ?_⟩
  unfold RequestTask.decode
  rw [RequestStatus.ofValue_value]
  rfl

theorem get?_append_singleton (l : List Inode) (x : Inode) :
    (l ++ [x]).get? l.length = some x := by
  induction l with
  | nil => rfl
  | cons a l ih => exact ih

theorem get?_set_of_get?_some {l : List Inode} {i : Nat} {x : Inode}
    (y : Inode) (h : l.get? i = some x) : (l.set i y).get? i = some y := by
  induction l generalizing i with
  | nil => simp at h
  | cons a l ih =>
      cases i with
      | zero => rfl
      | succ j => exact ih h

/-- C3: for every Task Record whose request_body and return_value are
representable in the textual storage format (the error field is
representable by construction, being text-only), decoding the encoded
record returns the record with every field intact, including when
return_value is null and the error is absent. -/
theorem request_task_codec_roundtrip (t : RequestTask)
    (hb : PyVal.serializable t.request_body = true)
    (hr : PyVal.serializable t.return_value = true) :
    ∃ p, t.encode = .ok p ∧ RequestTask.decode p = .ok t :=
  decode_encode_of_serializable hb hr

/-- Witness for C3 at the scenario record `taskEcho`, whose return_value
is null and whose error is absent. -/
theorem request_task_codec_roundtrip_witness :
    PyVal.serializable taskEcho.request_body = true ∧
    PyVal.serializable taskEcho.return_value = true ∧
    taskEcho.return_value = .null ∧ taskEcho.error = none ∧
    ∃ p, taskEcho.encode = .ok p ∧ RequestTask.decode p = .ok taskEcho :=
  ⟨by decide, by decide, rfl, rfl,
   request_task_codec_roundtrip taskEcho (by decide) (by decide)⟩

/-- C4: calling set_error with an error object and then get_error yields a
dictionary whose type entry equals the class name of the error, whose
message entry equals str of the error exactly, and whose object entry is
the payload object reconstructed from the opaque encoding (the pickle
primitives of the missing encoders and decoders modules are modelled from
the spec as an inverse pair). -/
theorem get_error_after_set_error (t : RequestTask) (e : ExcObj) :
    (t.set_error e).get_error =
      some [("object", .pyobj e), ("type", .s e.className),
            ("message", .s (excStr e))] :=
  rfl

/-- C7: the status comparison s1 greater-than s2 holds exactly when the
position of s1 in the declaration order PENDING, RUNNING, SUCCEEDED,
FAILED, ABORTED is strictly greater than the position of s2. -/
theorem status_gt_iff_decl_position (s₁ s₂ : RequestStatus) :
    RequestStatus.gt s₁ s₂ = true ↔ statusDeclIndex s₁ > statusDeclIndex s₂ := by
  cases s₁ <;> cases s₂ <;> decide

/-- C9: set_error mutates only the error field and set_return_value
mutates only the return_value field; request_id, name, entrypoint,
request_body, status and pid are unchanged by both (set_error also keeps
return_value, set_return_value also keeps error). -/
theorem set_error_set_return_value_frame :
    (∀ (t : RequestTask) (e : ExcObj),
      (t.set_error e).request_id = t.request_id ∧
      (t.set_error e).name = t.name ∧
      (t.set_error e).entrypoint = t.entrypoint ∧
      (t.set_error e).request_body = t.request_body ∧
      (t.set_error e).status = t.status ∧
      (t.set_error e).return_value = t.return_value ∧
      (t.set_error e).pid = t.pid) ∧
    ∀ (registry : List (String × (PyVal → PyVal))) (t : RequestTask)
      (v : PyVal) (u : RequestTask),
      RequestTask.set_return_value registry t v = .ok u →
      u.request_id = t.request_id ∧ u.name = t.name ∧
      u.entrypoint = t.entrypoint ∧ u.request_body = t.request_body ∧
      u.status = t.status ∧ u.error = t.error ∧ u.pid = t.pid := by
  constructor
  · intro t e
    exact ⟨rfl, rfl, rfl, rfl, rfl, rfl, rfl⟩
  · intro registry t v u h
    unfold RequestTask.set_return_value get_handler at h
    cases hl : registry.lookup t.name with
    | none =>
        rw [hl] at h
        exact absurd h (by simp [Except.map])
    | some hdl =>
        rw [hl] at h
        simp only [Except.map] at h
        cases h
        exact ⟨rfl, rfl, rfl, rfl, rfl, rfl, rfl⟩

/-- Witness for C9 at a concrete registry, record and value. -/
theorem set_error_set_return_value_frame_witness :
    ∃ u, RequestTask.set_return_value echoRegistry taskEcho (.int 42) = .ok u ∧
      u.request_id = taskEcho.request_id ∧ u.name = taskEcho.name ∧
      u.entrypoint = taskEcho.entrypoint ∧
      u.request_body = taskEcho.request_body ∧ u.status = taskEcho.status ∧
      u.error = taskEcho.error ∧ u.pid = taskEcho.pid := by
  refine ⟨_, rfl, ?_⟩
  exact set_error_set_return_value_frame.2 echoRegistry taskEcho (.int 42) _ rfl

/-- C10: get_error returns none exactly when the stored error field is
none, and every dictionary it returns has exactly the keys object, type
and message. -/
theorem get_error_none_iff_error_none_and_keys (t : RequestTask) :
    (t.get_error = none ↔ t.error = none) ∧
    ∀ g, t.get_error = some g →
      g.map Prod.fst = ["object", "type", "message"] := by
  cases he : t.error with
  | none =>
      refine ⟨by simp [RequestTask.get_error, he], ?_⟩
      intro g hg
      rw [RequestTask.get_error, he] at hg
      exact absurd hg (by simp)
  | some e =>
      refine ⟨by simp [RequestTask.get_error, he], ?_⟩
      intro g hg
      rw [RequestTask.get_error, he] at hg
      cases hg
      rfl

/-- Witness for C10 at a record holding the scenario error. -/
theorem get_error_none_iff_error_none_and_keys_witness :
    taskWithError.error ≠ none ∧
    ∃ g, taskWithError.get_error = some g ∧
      g.map Prod.fst = ["object", "type", "message"] := by
  refine ⟨by decide, _, rfl, ?_⟩
  exact (get_error_none_iff_error_none_and_keys taskWithError).2 _ rfl

/-- C5: get_request on an id with no stored record returns the explicit
not-found result (ok none), not an error. -/
theorem get_request_unknown_id_not_found (s : GState) (id : String)
    (h : (init_db s).table.lookup id = none) :
    (get_request s id).1 = .ok none := by
  have hg : _get_rest_task_no_lock (init_db s) id = .ok none := by
    unfold _get_rest_task_no_lock
    rw [h]
  exact hg

/-- Witness for C5: a fresh process asking for an unknown id. -/
theorem get_request_unknown_id_not_found_witness :
    (init_db GState.fresh).table.lookup "unknown" = none ∧
    (get_request GState.fresh "unknown").1 = .ok none :=
  ⟨rfl, get_request_unknown_id_not_found GState.fresh "unknown" rfl⟩

/-- C6: when update_rest_task is entered on an initialized process and no
record is stored for the id, no write occurs and the state is returned
unchanged. -/
theorem update_rest_task_missing_id_no_write (s : GState) (id : String)
    (f : RequestTask → RequestTask) (i : Nat)
    (hinit : s.handle = some i) (habs : s.table.lookup id = none) :
    update_rest_task s id f = .ok s := by
  have hg : _get_rest_task_no_lock s id = .ok none := by
    unfold _get_rest_task_no_lock
    rw [habs]
  unfold update_rest_task
  rw [init_db_of_handle_some hinit]
  simp only [hg]

/-- Witness for C6: an initialized empty store, any id, the pid bump as
the attempted caller mutation. -/
theorem update_rest_task_missing_id_no_write_witness :
    sEmptyTable.handle = some 0 ∧ sEmptyTable.table.lookup "r1" = none ∧
    update_rest_task sEmptyTable "r1" bumpPid = .ok sEmptyTable :=
  ⟨rfl, rfl, update_rest_task_missing_id_no_write sEmptyTable "r1" bumpPid 0 rfl rfl⟩

/-- C1 (code bug): the body of update_rest_task acquires no per-request
lock at all — its action trace contains neither acquire nor release,
unlike get_request and dump_reqest — so the read-read-write-write
interleaving of two competing updates on the same id is legal (nothing
orders the two critical sections) and loses an update: both callers
increment the pid counter found at 0, the interleaved run stores 1 where
every serialized order stores 2. -/
theorem update_rest_task_unlocked_loses_update :
    (∀ (id : String) (found : Bool),
      LockAction.acquire id ∉ update_rest_task_trace id found ∧
      LockAction.release id ∉ update_rest_task_trace id found) ∧
    (∀ id : String,
      LockAction.acquire id ∈ get_request_trace id ∧
      LockAction.acquire id ∈ dump_reqest_trace id) ∧
    storedPid (two_updates_read_read_write_write sPidZero "r1" bumpPid bumpPid)
      "r1" = some (some 1) ∧
    storedPid (two_updates_serialized sPidZero "r1" bumpPid bumpPid)
      "r1" = some (some 2) := by
  refine ⟨?_, ?_, ?_, ?_⟩
  · intro id found
    cases found <;>
      simp [update_rest_task_trace, _get_rest_task_no_lock_trace,
            _dump_request_no_lock_trace]
  · intro id
    simp [get_request_trace, dump_reqest_trace,
          _get_rest_task_no_lock_trace, _dump_request_no_lock_trace]
  · rfl
  · rfl

/-- C2 counterexample: on a process whose lazy handle is already open,
reset_db unlinks the file but leaves the open handle in place (the
process-wide singleton is not cleared), so a subsequent get still returns
the record stored before the reset instead of the promised not-found. -/
theorem reset_db_then_get_returns_stale_record :
    (get_request (reset_db sInitialized) "r1").1 = .ok (some taskEcho) ∧
    (get_request (reset_db sInitialized) "r1").1 ≠ .ok none := by
  refine ⟨rfl, fun h => ?_⟩
  have h₂ : (Except.ok (some taskEcho) : Except DecodeFailure (Option RequestTask)) =
      Except.ok none := by
    rw [← h]
    rfl
  exact Option.noConfusion (Except.ok.inj h₂)

theorem table_of_get?_some {l : List Inode} {i : Nat} {node : Inode}
    {pa : Option Nat} (hget : l.get? i = some node) :
    GState.table ⟨some i, pa, l⟩ = node.rows := by
  show ((l.get? i).map Inode.rows).getD [] = node.rows
  rw [hget]
  rfl

theorem setRow_of_get?_some {l : List Inode} {i : Nat} {node : Inode}
    {pa : Option Nat} (hget : l.get? i = some node) (id : String) (row : Row) :
    GState.setRow ⟨some i, pa, l⟩ id row =
      ⟨some i, pa, l.set i ⟨upsertRow id row node.rows⟩⟩ := by
  unfold GState.setRow
  split
  next i₂ heq =>
    injection heq with heq₂
    subst heq₂
    split
    next node₂ heq₃ =>
      rw [hget] at heq₃
      injection heq₃ with heq₄
      subst heq₄
      rfl
    next heq₃ =>
      rw [hget] at heq₃
      cases heq₃
  next heq =>
    cases heq

theorem decode_of_encoded_row {t : RequestTask} :
    RequestTask.decode ⟨t.request_id, t.name, t.entrypoint, ⟨t.request_body⟩,
      t.status.value, ⟨t.return_value⟩, ⟨t.error⟩, t.pid⟩ = .ok t := by
  unfold RequestTask.decode
  rw [RequestStatus.ofValue_value]
  rfl

/-- C2 amended: after reset_db, a process whose lazy handle is not yet
initialized (the process-wide singleton is still unset) gets not-found for
every id, the next store access re-creates the schema as a fresh empty
table behind a new handle, and a subsequent write of any encodable record
succeeds and is then readable; a process whose handle was already open is
not covered — it keeps reading the pre-reset contents, because reset_db
does not clear the handle. -/
theorem reset_db_uninitialized_not_found_write_succeeds
    (s : GState) (id : String) (t : RequestTask)
    (hh : s.handle = none)
    (hb : PyVal.serializable t.request_body = true)
    (hr : PyVal.serializable t.return_value = true) :
    (get_request (reset_db s) id).1 = .ok none ∧
    (init_db (reset_db s)).handle = some s.inodes.length ∧
    (init_db (reset_db s)).inodes.get? s.inodes.length = some ⟨[]⟩ ∧
    ∃ s₂, dump_reqest (reset_db s) t = .ok s₂ ∧
      (get_request s₂ t.request_id).1 = .ok (some t) := by
  obtain ⟨h, p, l⟩ := s
  cases hh
  have henc := encode_eq_ok_of_serializable hb hr
  have hget := get?_append_singleton l (⟨[]⟩ : Inode)
  have ha : (get_request (reset_db (⟨none, p, l⟩ : GState)) id).1 = .ok none := by
    show _get_rest_task_no_lock
      (⟨some l.length, some l.length, l ++ [(⟨[]⟩ : Inode)]⟩ : GState) id = .ok none
    unfold _get_rest_task_no_lock
    rw [table_of_get?_some hget]
    rfl
  refine ⟨ha, rfl, hget, ?_⟩
  have hset := @setRow_of_get?_some (l ++ [(⟨[]⟩ : Inode)]) l.length
    (⟨[]⟩ : Inode) (some l.length) hget t.request_id
    (⟨t.request_id, t.name, t.entrypoint, ⟨t.request_body⟩, t.status.value,
      ⟨t.return_value⟩, ⟨t.error⟩, t.pid⟩ : Row)
  refine ⟨(⟨some l.length, some l.length,
    (l ++ [(⟨[]⟩ : Inode)]).set l.length
      (⟨[(t.request_id, (⟨t.request_id, t.name, t.entrypoint, ⟨t.request_body⟩,
        t.status.value, ⟨t.return_value⟩, ⟨t.error⟩, t.pid⟩ : Row))]⟩ : Inode)⟩ :
      GState), ?_, ?_⟩
  · show (t.encode).map
      (fun row => GState.setRow
        (⟨some l.length, some l.length, l ++ [(⟨[]⟩ : Inode)]⟩ : GState)
        t.request_id row) = _
    rw [henc]
    show Except.ok (GState.setRow
      (⟨some l.length, some l.length, l ++ [(⟨[]⟩ : Inode)]⟩ : GState)
      t.request_id
      (⟨t.request_id, t.name, t.entrypoint, ⟨t.request_body⟩, t.status.value,
        ⟨t.return_value⟩, ⟨t.error⟩, t.pid⟩ : Row)) = _
    rw [hset]
    rfl
  · show _get_rest_task_no_lock
      (⟨some l.length, some l.length,
        (l ++ [(⟨[]⟩ : Inode)]).set l.length
          (⟨[(t.request_id, (⟨t.request_id, t.name, t.entrypoint, ⟨t.request_body⟩,
            t.status.value, ⟨t.return_value⟩, ⟨t.error⟩, t.pid⟩ : Row))]⟩ :
            Inode)⟩ : GState) t.request_id = .ok (some t)
    unfold _get_rest_task_no_lock
    rw [table_of_get?_some (get?_set_of_get?_some
      (⟨[(t.request_id, (⟨t.request_id, t.name, t.entrypoint, ⟨t.request_body⟩,
        t.status.value, ⟨t.return_value⟩, ⟨t.error⟩, t.pid⟩ : Row))]⟩ : Inode)
      hget)]
    simp only [Inode.rows, List.lookup, beq_self_eq_true]
    rw [decode_of_encoded_row]
    rfl

/-- Witness for the amended C2: a fresh process, the id `zzz`, the record
`taskEcho`. -/
theorem reset_db_uninitialized_not_found_write_succeeds_witness :
    GState.fresh.handle = none ∧
    ((get_request (reset_db GState.fresh) "zzz").1 = .ok none ∧
     (init_db (reset_db GState.fresh)).handle = some GState.fresh.inodes.length ∧
     (init_db (reset_db GState.fresh)).inodes.get? GState.fresh.inodes.length =
       some ⟨[]⟩ ∧
     ∃ s₂, dump_reqest (reset_db GState.fresh) taskEcho = .ok s₂ ∧
       (get_request s₂ taskEcho.request_id).1 = .ok (some taskEcho)) :=
  ⟨rfl, reset_db_uninitialized_not_found_write_succeeds GState.fresh "zzz" taskEcho
    rfl (by decide) (by decide)⟩

/-- C8: encode fails exactly when request_body or return_value is not
representable in the storage format; every failure carries, beside the
re-raised TypeError, the printed diagnostic made of the request id, the
name, the request body and the return value — the two fields that can
offend, so the offending value is part of the diagnostic — and on success
nothing is coerced or dropped: the stored row holds the exact
serializations of the original values. -/
theorem encode_error_iff_unserializable_with_diagnostics (t : RequestTask) :
    ((∃ fl, t.encode = .error fl) ↔
      ¬(PyVal.serializable t.request_body = true ∧
        PyVal.serializable t.return_value = true)) ∧
    (∀ fl, t.encode = .error fl →
      fl.diag.request_id = t.request_id ∧ fl.diag.name = t.name ∧
      fl.diag.request_body = t.request_body ∧
      fl.diag.return_value = t.return_value) ∧
    (∀ pl, t.encode = .ok pl →
      pl.request_id = t.request_id ∧ pl.name = t.name ∧
      pl.entrypoint = t.entrypoint ∧ pl.request_body = ⟨t.request_body⟩ ∧
      pl.status = t.status.value ∧ pl.return_value = ⟨t.return_value⟩ ∧
      pl.error = ⟨t.error⟩ ∧ pl.pid = t.pid) := by
  cases hsb : PyVal.serializable t.request_body with
  | false =>
      have he : t.encode = .error ⟨t.encodeDiag, ⟨t.request_body⟩⟩ := by
        unfold RequestTask.encode json_dumps
        rw [hsb]
        rfl
      refine ⟨⟨fun _ => by simp [hsb], fun _ => ⟨_, he⟩⟩, ?_, ?_⟩
      · intro fl hfl
        rw [he] at hfl
        injection hfl with hx
        subst hx
        exact ⟨rfl, rfl, rfl, rfl⟩
      · intro pl hpl
        rw [he] at hpl
        cases hpl
  | true =>
      cases hsr : PyVal.serializable t.return_value with
      | false =>
          have he : t.encode = .error ⟨t.encodeDiag, ⟨t.return_value⟩⟩ := by
            unfold RequestTask.encode json_dumps
            rw [hsb, hsr]
            rfl
          refine ⟨⟨fun _ => by simp [hsr], fun _ => ⟨_, he⟩⟩, ?_, ?_⟩
          · intro fl hfl
            rw [he] at hfl
            injection hfl with hx
            subst hx
            exact ⟨rfl, rfl, rfl, rfl⟩
          · intro pl hpl
            rw [he] at hpl
            cases hpl
      | true =>
          have he := encode_eq_ok_of_serializable hsb hsr
          refine ⟨⟨?_, ?_⟩, ?_, ?_⟩
          · rintro ⟨fl, hfl⟩
            rw [he] at hfl
            cases hfl
          · intro hcon
            exact absurd ⟨rfl, rfl⟩ hcon
          · intro fl hfl
            rw [he] at hfl
            cases hfl
          · intro pl hpl
            rw [he] at hpl
            injection hpl with hx
            subst hx
            exact ⟨rfl, rfl, rfl, rfl, rfl, rfl, rfl, rfl⟩

/-- Witness for C8 at taskBadBody, whose request body is an opaque
non-serializable object. -/
theorem encode_error_unserializable_witness :
    ∃ fl, taskBadBody.encode = .error fl ∧
      fl.diag.request_id = taskBadBody.request_id ∧
      fl.diag.name = taskBadBody.name ∧
      fl.diag.request_body = taskBadBody.request_body ∧
      fl.diag.return_value = taskBadBody.return_value := by
  obtain ⟨fl, hfl⟩ :=
    (encode_error_iff_unserializable_with_diagnostics taskBadBody).1.mpr (by decide)
  obtain ⟨h₁, h₂, h₃, h₄⟩ :=
    (encode_error_iff_unserializable_with_diagnostics taskBadBody).2.1 fl hfl
  exact ⟨fl, hfl, h₁, h₂, h₃, h₄⟩
